import Mathlib

/-!
Shallow embedding of the Automaton Auditor orchestration/synthesis core
(`src/state.py`, `src/graph.py`, `src/nodes/judges.py`, `src/nodes/justice.py`)
and proofs of the specification claims about it.

Modelling conventions:
* Python `Optional[T]` becomes `Option T`; `None` becomes `none`.
* Python exceptions raised by scoring workers become `Except String`.
* Scores are `Nat` (the pydantic field is an `int` constrained to `0..5`);
  confidences are `Rat` (the pydantic field is a float in `[0,1]`; no
  floating-point arithmetic is ever performed on it by the core, it is only
  stored, so an exact numeric type is a faithful model).
* Python `dict` fields that are only stored are association lists; the
  `raw_evidence` dict, which is merged key-wise, is a map `String → Option _`;
  the `criterion_judgments` dict, whose merge iterates keys, is an
  association list with unique keys.
* Python's case-insensitive substring test `kw in s.lower()` is modelled by
  an explicit character-list substring search after character-wise
  `Char.toLower` lowering.
-/

/-- Substring search helper: is `p` a prefix of `s` (on character lists)? -/
def isPrefixChars : List Char → List Char → Bool
  | [], _ => true
  | _ :: _, [] => false
  | p :: ps, c :: cs => p == c && isPrefixChars ps cs

/-- Substring search helper: does `p` occur as a contiguous run inside `s`? -/
def hasSubChars (p : List Char) : List Char → Bool
  | [] => isPrefixChars p []
  | c :: cs => isPrefixChars p (c :: cs) || hasSubChars p cs

/-- Model of Python's `pat in s` substring containment. -/
def strHasSub (s pat : String) : Bool :=
  hasSubChars pat.data s.data

/-- Model of Python's `s.lower()` (character-wise lowering; all strings the
rules compare against are ASCII). -/
def lowerString (s : String) : String :=
  String.mk (s.data.map Char.toLower)

/-- `src/state.py` `Evidence`: forensic evidence record.  `timestamp` is an
abstract tick (a `Nat`); the `metadata` dict is a stored-only association
list. -/
structure Evidence where
  found : Bool
  content : Option String
  location : String
  confidence : Rat
  timestamp : Nat
  metadata : List (String × String)
deriving DecidableEq

/-- `src/state.py` `GitCommit`. -/
structure GitCommit where
  hash : String
  message : String
  author : String
  timestamp : Nat
  files_changed : List String
deriving DecidableEq

/-- `src/state.py` `GitForensicEvidence.progression_pattern` literal type. -/
inductive ProgressionPattern where
  | analysis_scaffolding_logic
  | bulk_dump
  | monolithic
  | unknown
deriving DecidableEq

/-- `src/state.py` `GitForensicEvidence`. -/
structure GitForensicEvidence where
  commits : List GitCommit
  commit_count : Nat
  has_atomic_history : Bool
  progression_pattern : ProgressionPattern
  timestamps : List Nat
deriving DecidableEq

/-- `src/state.py` `CodeStructureEvidence`. -/
structure CodeStructureEvidence where
  architecture_notes_exists : Bool
  architecture_notes_paths : List String := []
  tool_registered : Bool
  tool_location : Option String := none
  system_prompt_contains_instruction : Bool
  system_prompt_location : Option String := none
  middleware_exists : Bool
  middleware_location : Option String := none
  hashing_implemented : Bool
  hashing_location : Option String := none
  trace_writing_implemented : Bool
  trace_location : Option String := none
  state_models_detected : Bool := false
  state_model_locations : List String := []
  graph_fan_out_detected : Bool := false
  graph_fan_in_detected : Bool := false
  conditional_edges_detected : Bool := false
  checkpointer_detected : Bool := false
  graph_edge_count : Nat := 0
  graph_node_count : Nat := 0
deriving DecidableEq

/-- `src/state.py` `PdfForensicEvidence`. -/
structure PdfForensicEvidence where
  cognitive_depth : List (String × String) := []
  trust_debt_mentioned : Bool
  context_injection_paradox_mentioned : Bool
  two_stage_state_machine_mentioned : Bool
  claimed_file_paths : List String := []
  verified_paths : List String := []
  hallucinated_paths : List String := []
  retrieval_snippets : List (String × List String) := []
deriving DecidableEq

/-- `src/state.py` `ImageForensicEvidence`. -/
structure ImageForensicEvidence where
  image_count : Nat
  diagram_types : List String := []
  handshake_visualized : Bool
  flow_description : Option String := none
  contains_reasoning_loop : Bool
  data_payloads_labeled : Bool
deriving DecidableEq

/-- `src/state.py` `ForensicEvidenceCollection`: the aggregate of the four
optional structured components plus the raw-evidence dict (modelled key-wise
as a map from evidence-item name to an optional record). -/
structure ForensicEvidenceCollection where
  git : Option GitForensicEvidence := none
  code : Option CodeStructureEvidence := none
  pdf : Option PdfForensicEvidence := none
  images : Option ImageForensicEvidence := none
  raw_evidence : String → Option Evidence := fun _ => none

/-- `src/state.py` `merge_evidences` (lines 117-133): reducer for parallel
evidence updates.  `None` inputs are replaced by the other side (or an empty
collection); otherwise each structured component takes the right side when
present (`right.component or left.component`) and the raw dict is merged
key-wise with right overriding (`{**left.raw_evidence, **right.raw_evidence}`). -/
def merge_evidences (left right : Option ForensicEvidenceCollection) :
    ForensicEvidenceCollection :=
  match left, right with
  | none, right => right.getD {}
  | some l, none => l
  | some l, some r =>
    { git := r.git.or l.git
      code := r.code.or l.code
      pdf := r.pdf.or l.pdf
      images := r.images.or l.images
      raw_evidence := fun k => (r.raw_evidence k).or (l.raw_evidence k) }

/-- `src/state.py` `JudicialOpinion.judge` literal type
(`Literal['Prosecutor', 'Defense', 'TechLead']`). -/
inductive Judge where
  | Prosecutor
  | Defense
  | TechLead
deriving DecidableEq

/-- `src/state.py` `JudicialOpinion`. -/
structure JudicialOpinion where
  judge : Judge
  criterion_id : String
  score : Nat
  argument : String
  cited_evidence : List String := []
  confidence : Rat
deriving DecidableEq

/-- `src/state.py` `CriterionJudgment`. -/
structure CriterionJudgment where
  criterion_id : String
  criterion_name : String
  opinions : List JudicialOpinion
deriving DecidableEq

/-- `src/state.py` `CriterionJudgment.score_variance`: `max − min` of the
opinion scores, `0` when fewer than two opinions. -/
def CriterionJudgment.score_variance (j : CriterionJudgment) : Nat :=
  let scores := j.opinions.map (fun o => o.score)
  if scores.length < 2 then 0
  else (scores.foldl max 0) - (scores.foldl min ((scores.headD 0)))

/-- Dict lookup on an association list (first binding wins, as in a Python
dict with unique keys). -/
def lookupJ : List (String × CriterionJudgment) → String → Option CriterionJudgment
  | [], _ => none
  | (k, j) :: t, key => if k = key then some j else lookupJ t key

/-- `src/state.py` `merge_criterion_judgments` (lines 136-152): reducer for
parallel judge updates.  Empty/None inputs give the other side; otherwise the
result is `dict(left)` with each colliding key's opinions list extended by the
right side's opinions (`merged[key].opinions.extend(judgment.opinions)`) and
each new key of the right side appended. -/
def merge_criterion_judgments
    (left right : List (String × CriterionJudgment)) :
    List (String × CriterionJudgment) :=
  if left.isEmpty then right
  else if right.isEmpty then left
  else
    (left.map (fun p =>
      match lookupJ right p.1 with
      | some rj => (p.1, { p.2 with opinions := p.2.opinions ++ rj.opinions })
      | none => p))
    ++ right.filter (fun p => (lookupJ left p.1).isNone)

/-- `src/state.py` `FinalVerdict`. -/
structure FinalVerdict where
  criterion_id : String
  final_score : Nat
  dissent_summary : String
  remediation_plan : List String := []
  security_override_applied : Bool := false
  fact_supremacy_applied : Bool := false
deriving DecidableEq

/-- Routing outcomes of `src/graph.py` `_route_based_on_evidence`
(`Literal["proceed_to_judges", "retry_detectives", "abort"]`). -/
inductive EvidenceRoute where
  | proceed_to_judges
  | retry_detectives
  | abort
deriving DecidableEq

/-- `src/graph.py` `_route_based_on_evidence` (lines 155-178).  Reads the
clone flag, the accumulated evidence-error list and the evidence collection
(`state.get('evidences')`, `Optional` at the `.get` level): clone failure
aborts; more than 3 errors aborts; a present collection missing git or code
evidence retries; a non-empty error list retries; otherwise proceed. -/
def route_based_on_evidence (repo_cloned : Bool)
    (evidence_errors : List String)
    (evidences : Option ForensicEvidenceCollection) : EvidenceRoute :=
  if repo_cloned = false then .abort
  else if evidence_errors.length > 3 then .abort
  else
    match evidences with
    | some ev =>
      if ev.git.isNone || ev.code.isNone then .retry_detectives
      else if !evidence_errors.isEmpty then .retry_detectives
      else .proceed_to_judges
    | none =>
      if !evidence_errors.isEmpty then .retry_detectives
      else .proceed_to_judges

/-- Routing outcomes of `src/graph.py` `_route_based_on_judges`
(`Literal["proceed_to_justice", "retry_judges"]`): the gate has no abort
outcome at all. -/
inductive JudgeRoute where
  | proceed_to_justice
  | retry_judges
deriving DecidableEq

/-- `src/graph.py` `_route_based_on_judges` (lines 188-196): retry the judge
fan-out when judge errors are present and fewer than 1 attempt was made;
otherwise proceed (both trailing branches return proceed). -/
def route_based_on_judges (judge_errors : List String)
    (judge_attempts : Nat) : JudgeRoute :=
  if !judge_errors.isEmpty && judge_attempts < 1 then .retry_judges
  else if !judge_errors.isEmpty then .proceed_to_justice
  else .proceed_to_justice

/-- One entry of the rubric's `dimensions` list as consumed by
`src/nodes/justice.py` and `src/nodes/judges.py` (`id`, `name`, optional
`forensic_instruction` key). -/
structure RubricCriterion where
  id : String
  name : String
  forensic_instruction : Option String := none
deriving DecidableEq

/-- `src/nodes/justice.py` lines 52-54: select the first opinion carrying a
given persona tag (`next((o for o in judgment.opinions if o.judge == ...), None)`). -/
def find_opinion (j : Judge) (ops : List JudicialOpinion) : Option JudicialOpinion :=
  ops.find? (fun o => o.judge == j)

/-- `src/nodes/justice.py` lines 56-58: the base-score source is the TechLead
opinion, else the fallback `prosecutor or defense`. -/
def base_opinion (judgment : CriterionJudgment) : Option JudicialOpinion :=
  (find_opinion .TechLead judgment.opinions).or
    ((find_opinion .Prosecutor judgment.opinions).or
      (find_opinion .Defense judgment.opinions))

/-- `src/nodes/justice.py` line 68: the fixed security keyword set. -/
def security_keywords : List String :=
  ["security", "vulnerability", "bypass", "injection"]

/-- `src/nodes/justice.py` lines 66-71, condition only: the security override
fires when a prosecutor opinion exists with score ≤ 1 whose argument contains
a security keyword (case-insensitive substring). -/
def security_override_fires (prosecutor : Option JudicialOpinion) : Bool :=
  match prosecutor with
  | some p =>
    decide (p.score ≤ 1) &&
      security_keywords.any (fun kw => strHasSub (lowerString p.argument) kw)
  | none => false

/-- `src/nodes/justice.py` lines 105-113, one loop iteration of
`_verify_defense_claims`: a citation mentioning `architecture_notes` requires
structure evidence with `architecture_notes_exists`; otherwise a citation
mentioning `git` requires history evidence with a non-zero `commit_count`
(`elif` chain, so `architecture_notes` takes precedence); any other citation
passes. -/
def verifyCitation (citation : String)
    (evidences : ForensicEvidenceCollection) : Bool :=
  if strHasSub (lowerString citation) "architecture_notes" then
    match evidences.code with
    | some c => c.architecture_notes_exists
    | none => false
  else if strHasSub (lowerString citation) "git" then
    match evidences.git with
    | some g => decide (0 < g.commit_count)
    | none => false
  else true

/-- `src/nodes/justice.py` lines 101-114 `_verify_defense_claims`: every cited
evidence string must verify (the Python loop returns `False` on the first
failing citation, `True` otherwise). -/
def verify_defense_claims (defense : JudicialOpinion)
    (evidences : ForensicEvidenceCollection) : Bool :=
  defense.cited_evidence.all (fun c => verifyCitation c evidences)

/-- `src/nodes/justice.py` lines 73-78, condition only: the fact-supremacy
rule fires when a defense opinion exists with score ≥ 4 whose cited evidence
fails verification. -/
def fact_supremacy_fires (defense : Option JudicialOpinion)
    (evidences : ForensicEvidenceCollection) : Bool :=
  match defense with
  | some d => decide (4 ≤ d.score) && !(verify_defense_claims d evidences)
  | none => false

/-- `src/nodes/justice.py` line 119: the `{o.judge: o for o in opinions}`
dict comprehension keeps the last opinion per persona. -/
def last_opinion (j : Judge) (ops : List JudicialOpinion) : Option JudicialOpinion :=
  ops.reverse.find? (fun o => o.judge == j)

/-- `src/nodes/justice.py` lines 116-146 `_generate_dissent`. -/
def generate_dissent (judgment : CriterionJudgment) (final_score : Nat) : String :=
  let parts :=
    (match last_opinion .Prosecutor judgment.opinions with
     | some p => ["Prosecution: Score " ++ toString p.score ++ " - " ++ p.argument.take 160]
     | none => [])
    ++ (match last_opinion .Defense judgment.opinions with
     | some d => ["Defense: Score " ++ toString d.score ++ " - " ++ d.argument.take 160]
     | none => [])
    ++ (match last_opinion .TechLead judgment.opinions with
     | some t => ["Tech Lead: Score " ++ toString t.score ++ " - " ++ t.argument.take 160]
     | none => [])
    ++ ["Final Ruling: Score " ++ toString final_score]
    ++ (if 2 < judgment.score_variance then
        ["NOTE: Significant disagreement between judges resolved by Tech Lead."]
      else [])
  String.intercalate "\n\n" parts

/-- `src/nodes/justice.py` lines 148-188 `_generate_remediation`. -/
def generate_remediation (rubric : List RubricCriterion) (criterion_id : String)
    (score : Nat) (prosecutor defense tech_lead : Option JudicialOpinion) :
    List String :=
  match rubric.find? (fun c => c.id == criterion_id) with
  | none => ["No remediation guidance available."]
  | some rc =>
    let scoreSteps :=
      if score ≤ 2 then
        match prosecutor with
        | some p =>
          ["Critical: " ++ p.argument.take 200]
          ++ (match rc.forensic_instruction with
              | some fi => ["Implement: " ++ fi]
              | none => [])
        | none => []
      else if score == 3 then
        match tech_lead with
        | some t => ["Refine: " ++ t.argument.take 200]
        | none => []
      else
        match defense with
        | some d => ["Polish: " ++ d.argument.take 200]
        | none => []
    scoreSteps
    ++ (match prosecutor with
        | some p =>
          if !p.cited_evidence.isEmpty then
            ["Review evidence: " ++ String.intercalate ", " (p.cited_evidence.take 3)]
          else []
        | none => [])

/-- `src/nodes/justice.py` lines 47-99 `_deliberate_criterion`: select the
persona opinions, take the base score from the TechLead (or fallback) opinion,
apply the security-override rule, then the fact-supremacy rule, and emit the
`FinalVerdict`.  When no opinion exists at all the base source is `None` and
reading its score raises (`tech_lead.score`), so no verdict is produced:
modelled as `none`. -/
def deliberate_criterion (rubric : List RubricCriterion)
    (judgment : CriterionJudgment)
    (evidences : ForensicEvidenceCollection) : Option FinalVerdict :=
  let prosecutor := find_opinion .Prosecutor judgment.opinions
  let defense := find_opinion .Defense judgment.opinions
  match base_opinion judgment with
  | none => none
  | some tech_lead =>
    let secFires := security_override_fires prosecutor
    let score1 := if secFires then min tech_lead.score 3 else tech_lead.score
    let factFires := fact_supremacy_fires defense evidences
    let final_score := if factFires then tech_lead.score else score1
    some
      { criterion_id := judgment.criterion_id
        final_score := final_score
        dissent_summary := generate_dissent judgment final_score
        remediation_plan :=
          generate_remediation rubric judgment.criterion_id final_score
            prosecutor defense (some tech_lead)
        security_override_applied := secFires
        fact_supremacy_applied := factFires }

/-- `src/nodes/judges.py` lines 195-202: the fallback opinion substituted when
a scoring worker fails. -/
def fallback_opinion (persona : Judge) (criterion_id : String)
    (err : String) : JudicialOpinion :=
  { judge := persona
    criterion_id := criterion_id
    score := 1
    argument := "Judgment failed: " ++ err
    cited_evidence := []
    confidence := ⟨1, 10, by decide, by decide⟩ }

/-- `src/nodes/judges.py` lines 160-202 `_judge_criteria`, opinion-production
loop.  The scoring worker (the LLM chain invocation, an external collaborator
per the output contract) is abstracted as a function returning either a parsed
opinion or an error string (any raised exception / parse failure).  On
success the pool overwrites the persona tag and criterion id
(`result.judge = persona; result.criterion_id = criterion['id']`); on failure
it substitutes the fallback opinion. -/
def judge_criteria (persona : Judge)
    (worker : RubricCriterion → Except String JudicialOpinion)
    (criteria : List RubricCriterion) : List JudicialOpinion :=
  criteria.map (fun c =>
    match worker c with
    | .ok r => { r with judge := persona, criterion_id := c.id }
    | .error e => fallback_opinion persona c.id e)

/-- Spec-side routing function for the purity property of the Evidence Gate:
the route as a function of `(clone_ok, error_count, history_present,
code_present)` only, with the branches in the order the gate evaluates them
(clone failure, error threshold, missing core evidence, any error, proceed). -/
def route_pure (clone_ok : Bool) (error_count : Nat)
    (history_present code_present : Bool) : EvidenceRoute :=
  if clone_ok = false then .abort
  else if error_count > 3 then .abort
  else if !history_present || !code_present then .retry_detectives
  else if error_count != 0 then .retry_detectives
  else .proceed_to_judges

/-- Claim-side citation verification, following the claim's words for the
refinement comparison with `verifyCitation`: a citation mentioning
`architecture_notes` verifies only with structure evidence carrying
`architecture_notes_exists`, a citation mentioning `git` only with history
evidence carrying a positive `commit_count`, and both conditions apply to a
citation mentioning both; unrecognized text passes. -/
def verifyCitationClaim (citation : String)
    (evidences : ForensicEvidenceCollection) : Bool :=
  (if strHasSub (lowerString citation) "architecture_notes" then
    match evidences.code with
    | some c => c.architecture_notes_exists
    | none => false
  else true)
  && (if strHasSub (lowerString citation) "git" then
    match evidences.git with
    | some g => decide (0 < g.commit_count)
    | none => false
  else true)

/-- Concrete history evidence used by witnesses and counterexamples. -/
def sampleGit : GitForensicEvidence :=
  { commits := []
    commit_count := 5
    has_atomic_history := true
    progression_pattern := .unknown
    timestamps := [] }

/-- Concrete structure evidence (with architecture notes) used by witnesses
and counterexamples. -/
def sampleCode : CodeStructureEvidence :=
  { architecture_notes_exists := true
    tool_registered := false
    system_prompt_contains_instruction := false
    middleware_exists := false
    hashing_implemented := false
    trace_writing_implemented := false }

/-- Evidence collection with both core components present. -/
def fullEvidence : ForensicEvidenceCollection :=
  { git := some sampleGit, code := some sampleCode }

/-- Evidence collection with structure evidence only (no history evidence). -/
def evCodeOnly : ForensicEvidenceCollection :=
  { code := some sampleCode }

/-- Concrete prosecutor opinion: score 1 with a security keyword. -/
def pOp : JudicialOpinion :=
  { judge := .Prosecutor
    criterion_id := "c1"
    score := 1
    argument := "Critical security vulnerability found"
    cited_evidence := ["README.md"]
    confidence := ⟨9, 10, by decide, by decide⟩ }

/-- Concrete defense opinion citing a string that mentions both
`architecture_notes` and `git`. -/
def dOpBoth : JudicialOpinion :=
  { judge := .Defense
    criterion_id := "c1"
    score := 5
    argument := "great effort"
    cited_evidence := ["uses git architecture_notes"]
    confidence := ⟨4, 5, by decide, by decide⟩ }

/-- Concrete defense opinion citing the git history only. -/
def dOpGit : JudicialOpinion :=
  { judge := .Defense
    criterion_id := "c1"
    score := 5
    argument := "great effort"
    cited_evidence := ["git history shows iteration"]
    confidence := ⟨4, 5, by decide, by decide⟩ }

/-- Concrete tech-lead opinion with score 5. -/
def tOp : JudicialOpinion :=
  { judge := .TechLead
    criterion_id := "c1"
    score := 5
    argument := "works fine"
    cited_evidence := []
    confidence := ⟨7, 10, by decide, by decide⟩ }

/-- Judgment whose defense cites a string mentioning both keywords. -/
def judgmentBoth : CriterionJudgment :=
  { criterion_id := "c1", criterion_name := "Crit One"
    opinions := [pOp, dOpBoth, tOp] }

/-- Judgment whose defense cites the git history. -/
def judgmentGitCite : CriterionJudgment :=
  { criterion_id := "c1", criterion_name := "Crit One"
    opinions := [pOp, dOpGit, tOp] }

/-- Judgment with no opinions at all. -/
def judgmentEmpty : CriterionJudgment :=
  { criterion_id := "c1", criterion_name := "Crit One", opinions := [] }

/-- One-criterion rubric used by witnesses and counterexamples. -/
def sampleRubric : List RubricCriterion :=
  [{ id := "c1", name := "Crit One" }]

/-- First-attempt tech-lead opinion for the judgment-merge scenario. -/
def opTLfirst : JudicialOpinion :=
  { judge := .TechLead
    criterion_id := "c1"
    score := 2
    argument := "first attempt"
    cited_evidence := []
    confidence := ⟨3, 5, by decide, by decide⟩ }

/-- Retry tech-lead opinion for the judgment-merge scenario. -/
def opTLretry : JudicialOpinion :=
  { judge := .TechLead
    criterion_id := "c1"
    score := 4
    argument := "retry attempt"
    cited_evidence := []
    confidence := ⟨3, 5, by decide, by decide⟩ }

/-- Criterion judgment holding the first-attempt opinion. -/
def cjFirst : CriterionJudgment :=
  { criterion_id := "c1", criterion_name := "Crit One", opinions := [opTLfirst] }

/-- Criterion judgment holding the retry opinion. -/
def cjRetry : CriterionJudgment :=
  { criterion_id := "c1", criterion_name := "Crit One", opinions := [opTLretry] }

/-- Scoring worker that always fails (for the fallback-substitution witness). -/
def failingWorker : RubricCriterion → Except String JudicialOpinion :=
  fun _ => .error "LLM output failed schema validation"

/-- C7: the Judgment Gate routes RETRY iff the judge-error list is non-empty
and the judge-attempt counter is less than 1; in every other case, including
attempts = 1 with errors still present, it routes PROCEED; the gate has no
abort outcome. -/
theorem judgment_gate_retry_iff (judge_errors : List String)
    (judge_attempts : Nat) :
    (route_based_on_judges judge_errors judge_attempts = .retry_judges ↔
      judge_errors ≠ [] ∧ judge_attempts < 1)
    ∧ route_based_on_judges judge_errors 1 = .proceed_to_justice
    ∧ (route_based_on_judges judge_errors judge_attempts = .retry_judges ∨
       route_based_on_judges judge_errors judge_attempts = .proceed_to_justice) := by
  refine ⟨?_, ?_, ?_⟩
  · cases judge_errors with
    | nil => simp [route_based_on_judges]
    | cons e t =>
      by_cases h : judge_attempts < 1 <;>
        simp [route_based_on_judges, h]
  · cases judge_errors <;> simp [route_based_on_judges]
  · cases judge_errors with
    | nil => right; simp [route_based_on_judges]
    | cons e t =>
      by_cases h : judge_attempts < 1
      · left; simp [route_based_on_judges, h]
      · right; simp [route_based_on_judges, h]

/-- C4: the Evidence Gate decision is evaluated in order with first match
winning — clone failure aborts; more than 3 accumulated errors aborts; absent
history or structure evidence retries; a non-empty error list retries;
otherwise proceed — and in particular four evidence errors with a successful
clone route ABORT. -/
theorem evidence_gate_order (repo_cloned : Bool)
    (evidence_errors : List String) (ev : ForensicEvidenceCollection) :
    (repo_cloned = false →
      route_based_on_evidence repo_cloned evidence_errors (some ev) = .abort)
    ∧ (repo_cloned = true → evidence_errors.length > 3 →
      route_based_on_evidence repo_cloned evidence_errors (some ev) = .abort)
    ∧ (repo_cloned = true → evidence_errors.length ≤ 3 →
      (ev.git.isNone ∨ ev.code.isNone) →
      route_based_on_evidence repo_cloned evidence_errors (some ev) = .retry_detectives)
    ∧ (repo_cloned = true → evidence_errors.length ≤ 3 →
      ev.git.isSome → ev.code.isSome → evidence_errors ≠ [] →
      route_based_on_evidence repo_cloned evidence_errors (some ev) = .retry_detectives)
    ∧ (repo_cloned = true → evidence_errors = [] →
      ev.git.isSome → ev.code.isSome →
      route_based_on_evidence repo_cloned evidence_errors (some ev) = .proceed_to_judges)
    ∧ (repo_cloned = true → evidence_errors.length = 4 →
      route_based_on_evidence repo_cloned evidence_errors (some ev) = .abort) := by
  refine ⟨?_, ?_, ?_, ?_, ?_, ?_⟩
  · intro h; simp [route_based_on_evidence, h]
  · intro h hlen; simp [route_based_on_evidence, h, hlen]
  · intro h hlen hmiss
    have hnot : ¬ evidence_errors.length > 3 := by omega
    rcases hmiss with hg | hc
    · simp [route_based_on_evidence, h, hnot, hg]
    · simp [route_based_on_evidence, h, hnot, hc, Option.isNone_iff_eq_none.mp hc]
  · intro h hlen hg hc hne
    have hnot : ¬ evidence_errors.length > 3 := by omega
    rcases Option.isSome_iff_exists.mp hg with ⟨g, hg'⟩
    rcases Option.isSome_iff_exists.mp hc with ⟨c, hc'⟩
    simp [route_based_on_evidence, h, hnot, hg', hc', hne]
  · intro h he hg hc
    rcases Option.isSome_iff_exists.mp hg with ⟨g, hg'⟩
    rcases Option.isSome_iff_exists.mp hc with ⟨c, hc'⟩
    simp [route_based_on_evidence, h, he, hg', hc']
  · intro h hlen
    simp [route_based_on_evidence, h, hlen]

/-- C4 witness: four evidence errors with a successful clone and both core
components present route ABORT. -/
theorem evidence_gate_order_witness :
    route_based_on_evidence true ["e1", "e2", "e3", "e4"] (some fullEvidence)
      = .abort :=
  (evidence_gate_order true ["e1", "e2", "e3", "e4"] fullEvidence).2.2.2.2.2
    rfl rfl

/-- C5 counterexample: with a successful clone, exactly 3 accumulated
evidence errors and both history and structure evidence present, the gate
routes RETRY (the non-empty error list matches before the PROCEED default),
not PROCEED as the claim asserts. -/
theorem evidence_gate_three_errors_counterexample :
    route_based_on_evidence true ["e1", "e2", "e3"] (some fullEvidence)
      = .retry_detectives
    ∧ fullEvidence.git.isSome = true
    ∧ fullEvidence.code.isSome = true := by
  refine ⟨rfl, rfl, rfl⟩

/-- C5 (amended): the Evidence Gate routing decision is a pure function of
`(clone_ok, error_count, history_present, code_present)`; `error_count = 4`
routes ABORT; `error_count = 3` with both components present routes RETRY
(any non-empty error list prevents PROCEED); absent history evidence routes
RETRY whenever `error_count ≤ 3` and the clone succeeded. -/
theorem evidence_gate_pure (clone : Bool) (errs : List String)
    (ev : ForensicEvidenceCollection) :
    route_based_on_evidence clone errs (some ev)
      = route_pure clone errs.length ev.git.isSome ev.code.isSome
    ∧ (∀ hp cp, route_pure true 4 hp cp = .abort)
    ∧ route_pure true 3 true true = .retry_detectives
    ∧ (∀ n cp, n ≤ 3 → route_pure true n false cp = .retry_detectives) := by
  refine ⟨?_, ?_, rfl, ?_⟩
  · cases clone with
    | false => simp [route_based_on_evidence, route_pure]
    | true =>
      by_cases hlen : errs.length > 3
      · simp [route_based_on_evidence, route_pure, hlen]
      · obtain ⟨g, c, p, i, r⟩ := ev
        cases g <;> cases c <;> cases errs <;>
          simp [route_based_on_evidence, route_pure, hlen]
  · intro hp cp; cases hp <;> cases cp <;> rfl
  · intro n cp hn
    have hnot : ¬ n > 3 := by omega
    cases cp <;> simp [route_pure, hnot]

/-- C5 witness for the amended claim: two errors with absent history evidence
route RETRY. -/
theorem evidence_gate_pure_witness :
    route_pure true 2 false true = .retry_detectives :=
  (evidence_gate_pure true [] fullEvidence).2.2.2 2 true (by decide)

/-- C9: the EvidenceCollection merge is associative, each of the four
structured components is right-presence-wins (the merged component is the
right operand's when present, else the left's; merging a collection carrying
code evidence with one whose code component is absent keeps the code
evidence), and the raw-evidence map is merged key-wise with the right operand
overriding on key collision. -/
theorem merge_evidences_assoc_presence (A B C : ForensicEvidenceCollection) :
    merge_evidences (some (merge_evidences (some A) (some B))) (some C)
      = merge_evidences (some A) (some (merge_evidences (some B) (some C)))
    ∧ (∀ X : CodeStructureEvidence,
        (merge_evidences (some { code := some X }) (some {})).code = some X)
    ∧ (merge_evidences (some A) (some B)).git = B.git.or A.git
    ∧ (merge_evidences (some A) (some B)).code = B.code.or A.code
    ∧ (merge_evidences (some A) (some B)).pdf = B.pdf.or A.pdf
    ∧ (merge_evidences (some A) (some B)).images = B.images.or A.images
    ∧ (∀ k, (merge_evidences (some A) (some B)).raw_evidence k
        = (B.raw_evidence k).or (A.raw_evidence k)) := by
  refine ⟨?_, fun X => rfl, rfl, rfl, rfl, rfl, fun k => rfl⟩
  simp only [merge_evidences, ForensicEvidenceCollection.mk.injEq]
  refine ⟨Option.or_assoc.symm, Option.or_assoc.symm, Option.or_assoc.symm,
    Option.or_assoc.symm, funext fun k => Option.or_assoc.symm⟩

/-- C1: the Synthesis Engine applies the security override iff a Prosecutor
opinion exists with score ≤ 1 whose argument contains one of
{security, vulnerability, bypass, injection} as a case-insensitive substring;
when it fires (and the fact-supremacy rule does not later overwrite the
score) the verdict's score is `min(base_score, 3)` and
`security_override_applied` is set; it does not fire for a prosecutor score
of 2 even with a keyword match. -/
theorem security_override_iff (rubric : List RubricCriterion)
    (E : ForensicEvidenceCollection) (J : CriterionJudgment) (v : FinalVerdict)
    (h : deliberate_criterion rubric J E = some v) :
    (v.security_override_applied = true ↔
      ∃ p, find_opinion .Prosecutor J.opinions = some p ∧ p.score ≤ 1 ∧
        security_keywords.any (fun kw => strHasSub (lowerString p.argument) kw) = true)
    ∧ (v.security_override_applied = true → v.fact_supremacy_applied = false →
        ∀ tl, base_opinion J = some tl → v.final_score = min tl.score 3)
    ∧ (∀ p, find_opinion .Prosecutor J.opinions = some p → p.score = 2 →
        v.security_override_applied = false) := by
  unfold deliberate_criterion at h
  cases hb : base_opinion J with
  | none => rw [hb] at h; exact absurd h (by simp)
  | some tl =>
    rw [hb] at h
    simp only [Option.some.injEq] at h
    have hsecEq : v.security_override_applied
        = security_override_fires (find_opinion .Prosecutor J.opinions) := by
      rw [← h]
    have hfactEq : v.fact_supremacy_applied
        = fact_supremacy_fires (find_opinion .Defense J.opinions) E := by
      rw [← h]
    have hscoreEq : v.final_score
        = (if fact_supremacy_fires (find_opinion .Defense J.opinions) E then tl.score
           else if security_override_fires (find_opinion .Prosecutor J.opinions) then
             min tl.score 3
           else tl.score) := by
      rw [← h]
    refine ⟨?_, ?_, ?_⟩
    · rw [hsecEq]
      cases hp : find_opinion .Prosecutor J.opinions with
      | none => simp [security_override_fires, hp]
      | some p =>
        simp [security_override_fires, hp, Bool.and_eq_true, decide_eq_true_eq]
    · intro hsec hfact tl' htl'
      have htl : tl = tl' := Option.some.inj htl'
      rw [hsecEq] at hsec
      rw [hfactEq] at hfact
      rw [hscoreEq, hsec, hfact, ← htl]
      simp
    · intro p hp hscore
      rw [hsecEq]
      simp [security_override_fires, hp, hscore]

/-- C1 witness: a prosecutor score of 1 with the keyword `security` in the
argument sets the override flag on the emitted verdict. -/
theorem security_override_iff_witness :
    (deliberate_criterion sampleRubric judgmentGitCite evCodeOnly).map
      (fun v => v.security_override_applied) = some true := by
  cases hEq : deliberate_criterion sampleRubric judgmentGitCite evCodeOnly with
  | none => exact absurd hEq (by decide)
  | some v =>
    have hiff := (security_override_iff sampleRubric evCodeOnly judgmentGitCite v hEq).1
    show some v.security_override_applied = some true
    exact congrArg some (hiff.mpr ⟨pOp, by decide, by decide, by decide⟩)

/-- C2 counterexample: a citation mentioning both `architecture_notes` and
`git` is only checked against structure evidence (the `elif` chain), so with
structure evidence present (notes exist) and history evidence absent it
passes the code's verification and the fact-supremacy rule does not fire,
although the claim's verification semantics (a citation mentioning `git`
verifies only when history evidence is present with positive commit count)
says it fails and the rule must fire. -/
theorem fact_supremacy_counterexample :
    verifyCitationClaim "uses git architecture_notes" evCodeOnly = false
    ∧ verifyCitation "uses git architecture_notes" evCodeOnly = true
    ∧ find_opinion .Defense judgmentBoth.opinions = some dOpBoth
    ∧ dOpBoth.score = 5
    ∧ dOpBoth.cited_evidence = ["uses git architecture_notes"]
    ∧ (deliberate_criterion sampleRubric judgmentBoth evCodeOnly).map
        (fun v => v.fact_supremacy_applied) = some false := by
  refine ⟨by decide, by decide, by decide, rfl, rfl, by decide⟩

/-- C2 (amended): the fact-supremacy rule fires iff a Defense opinion exists
with score ≥ 4 and at least one of its cited-evidence strings fails the
code's verification, in which a citation mentioning `architecture_notes` is
checked only against structure evidence (even when it also mentions `git`),
a citation mentioning `git` but not `architecture_notes` requires history
evidence with positive commit count, and any other citation passes; when the
rule fires the verdict's score is the base (TechLead-or-fallback) opinion's
score. -/
theorem fact_supremacy_iff (rubric : List RubricCriterion)
    (E : ForensicEvidenceCollection) (J : CriterionJudgment) (v : FinalVerdict)
    (h : deliberate_criterion rubric J E = some v) :
    (v.fact_supremacy_applied = true ↔
      ∃ d, find_opinion .Defense J.opinions = some d ∧ 4 ≤ d.score ∧
        verify_defense_claims d E = false)
    ∧ (v.fact_supremacy_applied = true → ∀ tl, base_opinion J = some tl →
        v.final_score = tl.score) := by
  unfold deliberate_criterion at h
  cases hb : base_opinion J with
  | none => rw [hb] at h; exact absurd h (by simp)
  | some tl =>
    rw [hb] at h
    simp only [Option.some.injEq] at h
    have hfactEq : v.fact_supremacy_applied
        = fact_supremacy_fires (find_opinion .Defense J.opinions) E := by
      rw [← h]
    have hscoreEq : v.final_score
        = (if fact_supremacy_fires (find_opinion .Defense J.opinions) E then tl.score
           else if security_override_fires (find_opinion .Prosecutor J.opinions) then
             min tl.score 3
           else tl.score) := by
      rw [← h]
    constructor
    · rw [hfactEq]
      cases hd : find_opinion .Defense J.opinions with
      | none => simp [fact_supremacy_fires, hd]
      | some d =>
        simp [fact_supremacy_fires, hd, Bool.and_eq_true, decide_eq_true_eq,
          Bool.not_eq_true']
    · intro hfact tl' htl'
      have htl : tl = tl' := Option.some.inj htl'
      rw [hfactEq] at hfact
      rw [hscoreEq, hfact, ← htl]
      simp

/-- C2 witness for the amended claim: a defense score of 5 citing the git
history while history evidence is absent makes the rule fire. -/
theorem fact_supremacy_iff_witness :
    (deliberate_criterion sampleRubric judgmentGitCite evCodeOnly).map
      (fun v => v.fact_supremacy_applied) = some true := by
  cases hEq : deliberate_criterion sampleRubric judgmentGitCite evCodeOnly with
  | none => exact absurd hEq (by decide)
  | some v =>
    have hiff := (fact_supremacy_iff sampleRubric evCodeOnly judgmentGitCite v hEq).1
    show some v.fact_supremacy_applied = some true
    exact congrArg some (hiff.mpr ⟨dOpGit, by decide, by decide, by decide⟩)

/-- C3: when both the security override and the fact-supremacy rule fire for
the same criterion, the emitted verdict's final score is the TechLead
opinion's score (even when it exceeds the security cap of 3) and both flags
are set. -/
theorem both_rules_final_score (rubric : List RubricCriterion)
    (E : ForensicEvidenceCollection) (J : CriterionJudgment) (v : FinalVerdict)
    (tl : JudicialOpinion)
    (h : deliberate_criterion rubric J E = some v)
    (htl : find_opinion .TechLead J.opinions = some tl)
    (hsec : security_override_fires (find_opinion .Prosecutor J.opinions) = true)
    (hfact : fact_supremacy_fires (find_opinion .Defense J.opinions) E = true) :
    v.final_score = tl.score ∧ v.security_override_applied = true
    ∧ v.fact_supremacy_applied = true := by
  have hb : base_opinion J = some tl := by
    unfold base_opinion
    rw [htl]
    rfl
  unfold deliberate_criterion at h
  rw [hb] at h
  simp only [Option.some.injEq] at h
  refine ⟨?_, ?_, ?_⟩
  · rw [← h]
    simp [hfact]
  · rw [← h]
    simpa using hsec
  · rw [← h]
    simpa using hfact

/-- C3 witness: prosecutor score 1 with a security keyword, defense score 5
citing absent git history, TechLead score 5 — the verdict's final score is 5
(above the security cap) with both flags set. -/
theorem both_rules_final_score_witness :
    (deliberate_criterion sampleRubric judgmentGitCite evCodeOnly).map
      (fun v => (v.final_score, v.security_override_applied, v.fact_supremacy_applied))
      = some (5, true, true) := by
  cases hEq : deliberate_criterion sampleRubric judgmentGitCite evCodeOnly with
  | none => exact absurd hEq (by decide)
  | some v =>
    have hv := both_rules_final_score sampleRubric evCodeOnly judgmentGitCite v tOp
      hEq (by decide) (by decide) (by decide)
    show some (v.final_score, v.security_override_applied, v.fact_supremacy_applied)
      = some (5, true, true)
    rw [hv.1, hv.2.1, hv.2.2]
    rfl

/-- C10: synthesis of a criterion is total only when the judgment has at
least one opinion — an empty opinions list leaves the base-score source
`None` and no verdict is produced; with at least one opinion a verdict is
always produced; the base-score source is the TechLead opinion, else the
Prosecutor opinion, else the Defense opinion; and absent both overrides the
verdict's score is the base opinion's score. -/
theorem empty_judgment_no_verdict (rubric : List RubricCriterion)
    (E : ForensicEvidenceCollection) (J : CriterionJudgment) :
    (J.opinions = [] → base_opinion J = none
      ∧ deliberate_criterion rubric J E = none)
    ∧ (J.opinions ≠ [] → (deliberate_criterion rubric J E).isSome = true)
    ∧ (∀ tl, find_opinion .TechLead J.opinions = some tl →
        base_opinion J = some tl)
    ∧ (find_opinion .TechLead J.opinions = none →
        ∀ p, find_opinion .Prosecutor J.opinions = some p →
          base_opinion J = some p)
    ∧ (find_opinion .TechLead J.opinions = none →
        find_opinion .Prosecutor J.opinions = none →
        base_opinion J = find_opinion .Defense J.opinions)
    ∧ (∀ tl v, base_opinion J = some tl →
        deliberate_criterion rubric J E = some v →
        v.security_override_applied = false → v.fact_supremacy_applied = false →
        v.final_score = tl.score) := by
  refine ⟨?_, ?_, ?_, ?_, ?_, ?_⟩
  · intro he
    have hbase : base_opinion J = none := by
      simp [base_opinion, find_opinion, he]
    exact ⟨hbase, by simp [deliberate_criterion, hbase]⟩
  · intro hne
    have hbase : (base_opinion J).isSome = true := by
      cases hl : J.opinions with
      | nil => exact absurd hl hne
      | cons o t =>
        unfold base_opinion find_opinion
        rw [hl]
        cases ho : o.judge <;>
          simp [List.find?, ho, Option.isSome_or]
    rcases Option.isSome_iff_exists.mp hbase with ⟨b, hb⟩
    simp [deliberate_criterion, hb]
  · intro tl htl
    unfold base_opinion
    rw [htl]
    rfl
  · intro htl p hp
    unfold base_opinion
    rw [htl, hp]
    rfl
  · intro htl hp
    unfold base_opinion
    rw [htl, hp]
    simp [Option.none_or]
  · intro tl v hb h hsec hfact
    unfold deliberate_criterion at h
    rw [hb] at h
    simp only [Option.some.injEq] at h
    have hsecEq : v.security_override_applied
        = security_override_fires (find_opinion .Prosecutor J.opinions) := by
      rw [← h]
    have hfactEq : v.fact_supremacy_applied
        = fact_supremacy_fires (find_opinion .Defense J.opinions) E := by
      rw [← h]
    have hscoreEq : v.final_score
        = (if fact_supremacy_fires (find_opinion .Defense J.opinions) E then tl.score
           else if security_override_fires (find_opinion .Prosecutor J.opinions) then
             min tl.score 3
           else tl.score) := by
      rw [← h]
    rw [hsecEq] at hsec
    rw [hfactEq] at hfact
    rw [hscoreEq, hsec, hfact]
    simp

/-- C10 witness: the empty judgment produces no verdict. -/
theorem empty_judgment_no_verdict_witness :
    deliberate_criterion sampleRubric judgmentEmpty evCodeOnly = none :=
  ((empty_judgment_no_verdict sampleRubric evCodeOnly judgmentEmpty).1 rfl).2

/-- Lookup distributes over association-list append via the first-hit rule. -/
theorem lookupJ_append (a b : List (String × CriterionJudgment)) (k : String) :
    lookupJ (a ++ b) k = (lookupJ a k).or (lookupJ b k) := by
  induction a with
  | nil => simp [lookupJ, Option.none_or]
  | cons p t ih =>
    obtain ⟨kk, j⟩ := p
    by_cases hk : kk = k
    · simp [lookupJ, hk, Option.or]
    · simp [lookupJ, hk, ih]

/-- Lookup after the key-preserving opinion-extension map of
`merge_criterion_judgments`: the looked-up judgment gets the right operand's
opinions for that key appended. -/
theorem lookupJ_map_extend (R L : List (String × CriterionJudgment))
    (k : String) :
    lookupJ (L.map (fun p =>
      match lookupJ R p.1 with
      | some rj => (p.1, { p.2 with opinions := p.2.opinions ++ rj.opinions })
      | none => p)) k
    = (lookupJ L k).map (fun j =>
        match lookupJ R k with
        | some rj => { j with opinions := j.opinions ++ rj.opinions }
        | none => j) := by
  induction L with
  | nil => simp [lookupJ]
  | cons p t ih =>
    obtain ⟨kk, j⟩ := p
    by_cases hk : kk = k
    · subst hk
      cases hR : lookupJ R kk <;> simp [lookupJ, hR]
    · cases hR : lookupJ R kk <;> simp [lookupJ, hk, hR, ih]

/-- C6 counterexample: merging two criterion-judgment maps that collide on
the same criterion key, each holding one TechLead opinion (a first attempt
and a retry), yields a judgment holding both opinions — the retry's opinion
is appended after the prior attempt's opinion, not substituted for it, so
the one-opinion-per-persona invariant is violated after the merge. -/
theorem merge_judgments_counterexample :
    (lookupJ (merge_criterion_judgments [("c1", cjFirst)] [("c1", cjRetry)]) "c1").map
      (fun j => j.opinions) = some [opTLfirst, opTLretry]
    ∧ opTLfirst.judge = .TechLead
    ∧ opTLretry.judge = .TechLead := by
  refine ⟨by decide, rfl, rfl⟩

/-- C6 (amended): when criterion-judgment maps are merged on a colliding
criterion key, the right operand's opinions list is concatenated onto the
left's — a duplicate opinion for the same (persona, criterion) pair from a
retry is appended after the prior attempt's opinion, not replaced, so
callers must supersede duplicates themselves. -/
theorem merge_judgments_concat (L R : List (String × CriterionJudgment))
    (k : String) (lj rj : CriterionJudgment)
    (hL : lookupJ L k = some lj) (hR : lookupJ R k = some rj) :
    lookupJ (merge_criterion_judgments L R) k
      = some { lj with opinions := lj.opinions ++ rj.opinions } := by
  have hLne : L.isEmpty = false := by
    cases L with
    | nil => simp [lookupJ] at hL
    | cons p t => rfl
  have hRne : R.isEmpty = false := by
    cases R with
    | nil => simp [lookupJ] at hR
    | cons p t => rfl
  unfold merge_criterion_judgments
  rw [hLne, hRne]
  simp only [Bool.false_eq_true, if_false]
  rw [lookupJ_append, lookupJ_map_extend, hL, hR]
  rfl

/-- C6 witness for the amended claim: the concrete collision of the two
single-opinion judgments produces the concatenated opinions list. -/
theorem merge_judgments_concat_witness :
    lookupJ (merge_criterion_judgments [("c1", cjFirst)] [("c1", cjRetry)]) "c1"
      = some { cjFirst with opinions := cjFirst.opinions ++ cjRetry.opinions } :=
  merge_judgments_concat [("c1", cjFirst)] [("c1", cjRetry)] "c1" cjFirst cjRetry
    (by decide) (by decide)

/-- Filtering the produced opinions of one scoring attempt by criterion id
matches filtering the criteria themselves: each produced opinion (parsed or
fallback) carries exactly its criterion's id. -/
theorem judge_criteria_filter_length (persona : Judge)
    (worker : RubricCriterion → Except String JudicialOpinion) (cid : String)
    (criteria : List RubricCriterion) :
    ((judge_criteria persona worker criteria).filter
      (fun o => o.criterion_id == cid)).length
    = (criteria.filter (fun c => c.id == cid)).length := by
  induction criteria with
  | nil => rfl
  | cons c t ih =>
    simp only [judge_criteria, List.map_cons, fallback_opinion] at ih ⊢
    cases hw : worker c <;> by_cases hc : (c.id == cid) = true <;>
      simp [List.filter_cons, fallback_opinion, hc, ih]

/-- C8: for every persona and criterion, a failed scoring-worker invocation
is not propagated — the pool substitutes a fallback Opinion with score 1,
confidence 0.1, a failure-describing argument, and empty cited evidence — and
within one scoring attempt every (persona, criterion) pair yields exactly one
Opinion. -/
theorem scoring_pool_fallback (persona : Judge)
    (worker : RubricCriterion → Except String JudicialOpinion)
    (criteria : List RubricCriterion) :
    (judge_criteria persona worker criteria).length = criteria.length
    ∧ (∀ o ∈ judge_criteria persona worker criteria, o.judge = persona)
    ∧ (judge_criteria persona worker criteria).map (fun o => o.criterion_id)
        = criteria.map (fun c => c.id)
    ∧ (∀ c ∈ criteria, ∀ e, worker c = .error e →
        fallback_opinion persona c.id e ∈ judge_criteria persona worker criteria)
    ∧ (∀ p cid e, (fallback_opinion p cid e).score = 1
        ∧ (fallback_opinion p cid e).confidence = 1/10
        ∧ (fallback_opinion p cid e).cited_evidence = []
        ∧ (fallback_opinion p cid e).argument = "Judgment failed: " ++ e)
    ∧ ((criteria.map (fun c => c.id)).Nodup → ∀ c ∈ criteria,
        ((judge_criteria persona worker criteria).filter
          (fun o => o.criterion_id == c.id)).length = 1) := by
  refine ⟨?_, ?_, ?_, ?_, ?_, ?_⟩
  · simp [judge_criteria]
  · intro o ho
    simp only [judge_criteria, List.mem_map] at ho
    obtain ⟨c, hc, rfl⟩ := ho
    cases worker c <;> rfl
  · simp only [judge_criteria, List.map_map]
    apply List.map_congr_left
    intro c hc
    simp only [Function.comp_apply]
    cases worker c <;> rfl
  · intro c hc e hw
    simp only [judge_criteria, List.mem_map]
    exact ⟨c, hc, by rw [hw]⟩
  · intro p cid e
    refine ⟨rfl, ?_, rfl, rfl⟩
    show (⟨1, 10, by decide, by decide⟩ : Rat) = 1/10
    rw [Rat.mk'_eq_divInt]
    norm_num [Rat.divInt_eq_div]
  · intro hnodup c hc
    rw [judge_criteria_filter_length]
    have h1 : (criteria.map (fun x => x.id)).count c.id = 1 :=
      List.count_eq_one_of_mem hnodup (List.mem_map_of_mem _ hc)
    rw [List.count, List.countP_eq_length_filter, List.filter_map,
      List.length_map] at h1
    simpa using h1

/-- C8 witness: with a worker that always fails over a two-criterion rubric
with distinct ids, each criterion yields exactly one opinion. -/
theorem scoring_pool_fallback_witness :
    ((judge_criteria .Prosecutor failingWorker
        [{ id := "c1", name := "Crit One" }, { id := "c2", name := "Crit Two" }]).filter
      (fun o => o.criterion_id == "c1")).length = 1 := by
  have h := (scoring_pool_fallback .Prosecutor failingWorker
    [{ id := "c1", name := "Crit One" }, { id := "c2", name := "Crit Two" }]).2.2.2.2.2
  exact h (by decide) { id := "c1", name := "Crit One" } (by decide)
